import Mathlib

/-!
Shallow embedding of the eventbrite-cetd attendee-export pipeline
(src/eventbrite_cetd/_internal/eventbrite.py and the CLI wrapper
src/eventbrite_cetd/_internal/cli.py), together with theorems checking
the specification's claims about it.

Modelling conventions:
- JSON page bodies are modelled by the record of the optional keys the
  code reads (organizations, attendees, pagination); a Python dict access
  d[k] on an absent key is an error (KeyError), d.get(k, v) a default.
- The HTTP fetch primitive (fetch / session.get + raise_for_status +
  json) is the environment: it is a parameter of type String -> Except
  PyErr RawPage mapping a request URL to a parsed page or an exception.
- Python while-loops are embedded with explicit fuel: a result of none
  means the loop did not finish within the given fuel (non-termination
  when it holds for every fuel); some (Except.error e) is a raised
  exception, some (Except.ok v) a normal return.
- Python truthiness of optional strings and booleans is made explicit
  (None and the empty string are falsy).
- asyncio.gather is modelled by an explicit completion schedule writing
  each task's result into the slot of the task's input index.
-/

/-- Python exceptions relevant to the pipeline: KeyError (missing dict key,
carrying the key), ValueError (failed int() conversion), the HTTP status
error raised by raise_for_status, and a network-level transport error. -/
inductive PyErr where
  | keyError (key : String)
  | valueError
  | httpStatusError (status : Nat)
  | transportError
deriving DecidableEq

/-- Decidable equality for raised-or-returned outcomes, for evaluating the
embedding on concrete inputs. -/
instance {ε α : Type} [DecidableEq ε] [DecidableEq α] : DecidableEq (Except ε α)
  | Except.ok a, Except.ok b =>
    if h : a = b then isTrue (by rw [h]) else isFalse (by intro hh; cases hh; exact h rfl)
  | Except.ok _, Except.error _ => isFalse (by intro hh; cases hh)
  | Except.error _, Except.ok _ => isFalse (by intro hh; cases hh)
  | Except.error e, Except.error f =>
    if h : e = f then isTrue (by rw [h]) else isFalse (by intro hh; cases hh; exact h rfl)

/-- Organization record as consumed by the code: org["id"] and org["name"]
(data model section 3; id kept as the raw JSON string). -/
structure Organization where
  id : String
  name : String
deriving DecidableEq

/-- Nested event name object: name.text, optional. -/
structure NameObj where
  text : Option String
deriving DecidableEq

/-- Nested event start object: start.utc, optional. -/
structure StartObj where
  utc : Option String
deriving DecidableEq

/-- Nested event mapping of an attendee record; every field optional. -/
structure EventObj where
  organization_id : Option String
  name : Option NameObj
  start : Option StartObj
deriving DecidableEq

/-- Nested profile mapping of an attendee record; every field optional. -/
structure Profile where
  name : Option String
  email : Option String
  age : Option String
  gender : Option String
  cell_phone : Option String
deriving DecidableEq

/-- Attendee record: every key the exporter reads, all optional
(the code defends against absence of each with .get). -/
structure Attendee where
  event_id : Option String
  checked_in : Option Bool
  event : Option EventObj
  profile : Option Profile
deriving DecidableEq

/-- Empty event mapping, the default for attendee.get("event", \x7b\x7d). -/
def EventObj.empty : EventObj := ⟨none, none, none⟩

/-- Empty name mapping, the default for event.get("name", \x7b\x7d). -/
def NameObj.empty : NameObj := ⟨none⟩

/-- Empty start mapping, the default for event.get("start", \x7b\x7d). -/
def StartObj.empty : StartObj := ⟨none⟩

/-- Empty profile mapping, the default for attendee.get("profile", \x7b\x7d). -/
def Profile.empty : Profile := ⟨none, none, none, none, none⟩

/-- Attendee record with every key absent. -/
def Attendee.empty : Attendee := ⟨none, none, none, none⟩

/-- Pagination block of a page response: both keys read with .get, so both
optional. has_more_items is kept as an optional boolean (absent key is
falsy, like False). -/
structure Pagination where
  continuation : Option String
  has_more_items : Option Bool
deriving DecidableEq

/-- Parsed JSON page body, restricted to the keys the code reads. A key
modelled as none is absent from the response. -/
structure RawPage where
  organizations : Option (List Organization)
  attendees : Option (List Attendee)
  pagination : Option Pagination
deriving DecidableEq

/-- The environment standing for fetch (src/eventbrite_cetd/_internal/
eventbrite.py lines 21-36): maps the request URL to the parsed JSON page,
or to the exception the GET raised. -/
def FetchEnv : Type := String → Except PyErr RawPage

/-- Python truthiness of an optional string (None and "" are falsy). -/
def isTruthyStr : Option String → Bool
  | none => false
  | some s => !(s == "")

/-- Python truthiness of an optional boolean (None is falsy). -/
def isTruthyBool : Option Bool → Bool
  | none => false
  | some b => b

/-- A value appearing in a CSV cell before serialization: the code puts
strings and the checked_in boolean into rows. -/
inductive Cell where
  | str (s : String)
  | bool (b : Bool)
deriving DecidableEq

/-- Python str() of a cell value, as csv.writer applies it: strings
unchanged, booleans as the tokens True and False. -/
def Cell.render : Cell → String
  | Cell.str s => s
  | Cell.bool b => if b then "True" else "False"

/-- Whether csv.writer (QUOTE_MINIMAL) must quote a field: it contains the
delimiter, the quote character, or a line-terminator character. -/
def needsQuoting (s : String) : Bool :=
  s.data.any (fun c => c == ',' || c == '"' || c == '\n' || c == '\r')

/-- Double every quote character in a field, as csv quoting does. -/
def doubleQuotes (s : String) : String :=
  String.mk (s.data.foldr (fun c acc => if c == '"' then '"' :: '"' :: acc else c :: acc) [])

/-- Serialize one CSV field with minimal quoting. -/
def csvQuote (s : String) : String :=
  if needsQuoting s then "\"" ++ doubleQuotes s ++ "\"" else s

/-- Serialize one CSV record: fields rendered, quoted and comma-joined
(csv.writer default dialect, line terminator omitted). -/
def renderRow (row : List Cell) : String :=
  String.intercalate "," (row.map (fun c => csvQuote c.render))

/-- Serialize a whole CSV table to its lines. -/
def renderCsv (rows : List (List Cell)) : List String :=
  rows.map renderRow

/-- The fixed CSV header (src/eventbrite_cetd/_internal/eventbrite.py
lines 124-125). -/
def csvHeaders : List String :=
  ["organization_id", "event_id", "event_name", "event_start", "checked_in",
   "attendee_name", "email", "age", "gender", "cell_phone"]

/-- The row built for one attendee (src/eventbrite_cetd/_internal/
eventbrite.py lines 131-146): the defensive .get chains, with
checked_in defaulting to the boolean False and every other field to "". -/
def attendeeRow (attendee : Attendee) : List Cell :=
  let event := attendee.event.getD EventObj.empty
  let profile := attendee.profile.getD Profile.empty
  [ Cell.str (event.organization_id.getD ""),
    Cell.str (attendee.event_id.getD ""),
    Cell.str ((event.name.getD NameObj.empty).text.getD ""),
    Cell.str ((event.start.getD StartObj.empty).utc.getD ""),
    Cell.bool (attendee.checked_in.getD false),
    Cell.str (profile.name.getD ""),
    Cell.str (profile.email.getD ""),
    Cell.str (profile.age.getD ""),
    Cell.str (profile.gender.getD ""),
    Cell.str (profile.cell_phone.getD "") ]

/-- The rows written to the output file by export_attendees_to_csv
(src/eventbrite_cetd/_internal/eventbrite.py lines 116-147): the header
row followed by one row per attendee, in order. File I/O is modelled as
the sequence of rows handed to writer.writerow. -/
def export_attendees_to_csv (attendees : List Attendee) : List (List Cell) :=
  (csvHeaders.map Cell.str) :: attendees.map attendeeRow

/-- The attendee record of the specification's single-record scenario. -/
def janeAttendee : Attendee :=
  { event_id := some "E1",
    checked_in := some true,
    event := some { organization_id := some "O1",
                    name := some { text := some "Gala" },
                    start := some { utc := some "2024-05-01T00:00:00Z" } },
    profile := some { name := some "Jane Doe",
                      email := some "jane@x.com",
                      age := none, gender := none, cell_phone := none } }

/-- Module constant BASE_URL (src/eventbrite_cetd/_internal/eventbrite.py
line 15). -/
def BASE_URL : String := "https://www.eventbriteapi.com/v3"

/-- URL built by the attendee paginator for one page request
(src/eventbrite_cetd/_internal/eventbrite.py lines 103-105): the base
attendees URL with expand=event, plus the continuation parameter when the
continuation value is truthy. -/
def attendeesUrl (base : String) (organization_id : Int) (continuation : Option String) : String :=
  let url := base ++ "/organizations/" ++ toString organization_id ++ "/attendees/?expand=event"
  if isTruthyStr continuation then url ++ "&continuation=" ++ continuation.getD "" else url

/-- URL built by the organization lister for one page request
(src/eventbrite_cetd/_internal/eventbrite.py lines 50-57): the base
organizations URL, plus the continuation parameter when truthy. -/
def orgsUrl (base : String) (continuation : Option String) : String :=
  let url := base ++ "/users/me/organizations/"
  if isTruthyStr continuation then url ++ "?continuation=" ++ continuation.getD "" else url

/-- fetch_attendees_page (src/eventbrite_cetd/_internal/eventbrite.py
lines 70-84): fetch the URL, then read data.get("attendees", []),
data["pagination"].get("continuation") and
data["pagination"].get("has_more_items"); an absent pagination block is a
KeyError. -/
def fetch_attendees_page (fetchF : FetchEnv) (url : String) :
    Except PyErr (List Attendee × Option String × Option Bool) :=
  match fetchF url with
  | Except.error e => Except.error e
  | Except.ok data =>
    match data.pagination with
    | none => Except.error (PyErr.keyError "pagination")
    | some p => Except.ok (data.attendees.getD [], p.continuation, p.has_more_items)

/-- The while-loop of get_attendees_by_org (src/eventbrite_cetd/_internal/
eventbrite.py lines 99-113), with explicit fuel and an instrumentation
counter of fetch calls issued (the counter is not in the source; it makes
the number of requests observable). State: remaining fuel, current
continuation, accumulated attendees, calls so far. -/
def attendeesLoop (fetchF : FetchEnv) (organization_id : Int) :
    Nat → Option String → List Attendee → Nat → Option (Except PyErr (List Attendee × Nat))
  | 0, _, _, _ => none
  | fuel + 1, continuation, acc, calls =>
    let url := attendeesUrl BASE_URL organization_id continuation
    match fetch_attendees_page fetchF url with
    | Except.error e => some (Except.error e)
    | Except.ok (page_attendees, continuation2, has_more_items) =>
      if isTruthyBool has_more_items then
        attendeesLoop fetchF organization_id fuel continuation2 (acc ++ page_attendees) (calls + 1)
      else
        some (Except.ok (acc ++ page_attendees, calls + 1))

/-- get_attendees_by_org (src/eventbrite_cetd/_internal/eventbrite.py
lines 87-113): run the pagination loop from no continuation and an empty
accumulator. Returns the attendee list together with the number of page
fetches issued. -/
def get_attendees_by_org (fetchF : FetchEnv) (organization_id : Int) (fuel : Nat) :
    Option (Except PyErr (List Attendee × Nat)) :=
  attendeesLoop fetchF organization_id fuel none [] 0

/-- The while-loop of get_my_organizations (src/eventbrite_cetd/_internal/
eventbrite.py lines 54-65), with explicit fuel. Mirrors the source order:
extend with data["organizations"] (KeyError when absent) before reading
data["pagination"] (KeyError when absent). -/
def orgsLoop (fetchF : FetchEnv) :
    Nat → Option String → List Organization → Option (Except PyErr (List Organization))
  | 0, _, _ => none
  | fuel + 1, continuation, acc =>
    let paginated_url := orgsUrl BASE_URL continuation
    match fetchF paginated_url with
    | Except.error e => some (Except.error e)
    | Except.ok data =>
      match data.organizations with
      | none => some (Except.error (PyErr.keyError "organizations"))
      | some orgs =>
        match data.pagination with
        | none => some (Except.error (PyErr.keyError "pagination"))
        | some p =>
          if isTruthyBool p.has_more_items then orgsLoop fetchF fuel p.continuation (acc ++ orgs)
          else some (Except.ok (acc ++ orgs))

/-- get_my_organizations (src/eventbrite_cetd/_internal/eventbrite.py
lines 39-67). -/
def get_my_organizations (fetchF : FetchEnv) (fuel : Nat) :
    Option (Except PyErr (List Organization)) :=
  orgsLoop fetchF fuel none []

/-- Digit run of a decimal literal, most significant first. -/
def digitsToNat (acc : Nat) : List Char → Option Nat
  | [] => some acc
  | c :: cs => if c.isDigit then digitsToNat (acc * 10 + (c.toNat - '0'.toNat)) cs else none

/-- Sign and digits of a Python int literal. -/
def pyIntCore : List Char → Option Int
  | '-' :: cs => if cs.isEmpty then none else (digitsToNat 0 cs).map (fun n => -(n : Int))
  | '+' :: cs => if cs.isEmpty then none else (digitsToNat 0 cs).map (fun n => (n : Int))
  | cs => if cs.isEmpty then none else (digitsToNat 0 cs).map (fun n => (n : Int))

/-- Python int() applied to a string (the conversion in main, line 171):
strip surrounding whitespace, optional sign, then decimal digits; none is
a ValueError. Underscore digit grouping is not modelled. -/
def pyInt (s : String) : Option Int :=
  pyIntCore (((s.data.dropWhile Char.isWhitespace).reverse.dropWhile Char.isWhitespace).reverse)

/-- The integer id main computes for an organization (defaulting to 0 when
the conversion would raise, only ever used under a hypothesis that it does
not). -/
def orgIdInt (org : Organization) : Int := (pyInt org.id).getD 0

/-- int(org["id"]) applied to each listed organization, in list order, as
the task-building comprehension of main does (src/eventbrite_cetd/
_internal/eventbrite.py lines 170-173); the first failing conversion
raises ValueError before any fetch task runs. -/
def convertIds : List Organization → Except PyErr (List Int)
  | [] => Except.ok []
  | org :: rest =>
    match pyInt org.id with
    | none => Except.error PyErr.valueError
    | some n => (convertIds rest).map (fun l => n :: l)

/-- Joined results of the per-organization fetch tasks, as awaited by
asyncio.gather in main (line 174): one get_attendees_by_org run per id,
results in input order; the first raised exception propagates; none when
some required run exceeds the fuel. -/
def gatherResults (fetchF : FetchEnv) (fuel : Nat) : List Int → Option (Except PyErr (List (List Attendee)))
  | [] => some (Except.ok [])
  | id :: rest =>
    match get_attendees_by_org fetchF id fuel with
    | none => none
    | some (Except.error e) => some (Except.error e)
    | some (Except.ok (atts, _)) =>
      match gatherResults fetchF fuel rest with
      | none => none
      | some (Except.error e) => some (Except.error e)
      | some (Except.ok others) => some (Except.ok (atts :: others))

/-- Completion-order model of asyncio.gather: tasks complete in the order
given by the schedule, each completed task i writes its result into slot i
of the result vector; gather returns the slots in input order. Used to
state that the output order is independent of the completion order. -/
def gatherSchedule {α : Type} (tasks : List α) (order : List Nat) : List (Option α) :=
  order.foldl (fun slots i => slots.set i tasks[i]?) (List.replicate tasks.length none)

/-- Observable outcome of a successful run of main: the rows written to
the CSV file and the per-organization summary (name, attendee count)
logged at the end. -/
structure RunOutput where
  csvRows : List (List Cell)
  summary : List (String × Nat)
deriving DecidableEq

namespace EventbriteCetd

/-- main (src/eventbrite_cetd/_internal/eventbrite.py lines 150-189):
list organizations, convert each id with int(), fetch all organizations'
attendees, flatten, export to CSV, summarize. Any exception is logged and
re-raised (the try block re-raises), so errors pass through unchanged.
The CSV file exists only in the success outcome: on an error, export is
never reached and no rows are written. -/
def main (fetchF : FetchEnv) (fuel : Nat) : Option (Except PyErr RunOutput) :=
  match get_my_organizations fetchF fuel with
  | none => none
  | some (Except.error e) => some (Except.error e)
  | some (Except.ok organizations) =>
    match convertIds organizations with
    | Except.error e => some (Except.error e)
    | Except.ok ids =>
      match gatherResults fetchF fuel ids with
      | none => none
      | some (Except.error e) => some (Except.error e)
      | some (Except.ok results) =>
        let all_attendees := results.flatten
        some (Except.ok
          { csvRows := export_attendees_to_csv all_attendees,
            summary := (organizations.zip results).map (fun p => (p.1.name, p.2.length)) })

end EventbriteCetd

/-- Exit code of the generate CLI command (src/eventbrite_cetd/_internal/
cli.py lines 76-81): 0 on success, 1 when main raises (typer.Exit(code=1)). -/
def generate (fetchF : FetchEnv) (fuel : Nat) : Option Nat :=
  match EventbriteCetd.main fetchF fuel with
  | none => none
  | some (Except.ok _) => some 0
  | some (Except.error _) => some 1

/-- Continuation used for the fetch of page i in a linked page sequence:
page 0 is fetched with no continuation, page i+1 with the continuation
token reported by page i. -/
def stepCont (tok : Nat → Option String) : Nat → Option String
  | 0 => none
  | i + 1 => tok i

/-- Concrete attendee used in mock pages. -/
def att0 : Attendee := { event_id := some "A0", checked_in := none, event := none, profile := none }

/-- Second concrete attendee used in mock pages. -/
def att1 : Attendee := { event_id := some "A1", checked_in := none, event := none, profile := none }

/-- Mock page contents for the two-page pagination scenario. -/
def c1Pages : Nat → List Attendee := fun i => if i = 0 then [att0] else [att1]

/-- Mock continuation tokens for the two-page pagination scenario. -/
def c1Tok : Nat → Option String := fun _ => some "T1"

/-- Mock attendee endpoint serving two linked pages for organization 7:
the first page points at the second with token T1 and reports more items,
the second reports no more items. -/
def c1Fetch : FetchEnv := fun url =>
  if url = attendeesUrl BASE_URL 7 none then
    Except.ok ⟨none, some [att0], some ⟨some "T1", some true⟩⟩
  else if url = attendeesUrl BASE_URL 7 (some "T1") then
    Except.ok ⟨none, some [att1], some ⟨some "T1", some false⟩⟩
  else Except.error PyErr.transportError

/-- Two concrete organizations. -/
def c2Orgs : List Organization := [⟨"1", "Acme"⟩, ⟨"2", "Beta"⟩]

/-- Concrete per-organization fetch outcome for the ordering scenario. -/
def c2Res : Organization → List Attendee := fun org => if org.id = "1" then [att0] else []

/-- Mock environment for the failure scenario: the organizations endpoint
lists Acme and Beta on one page, org 1's attendees fetch succeeds with one
single-page result, org 2's raises an HTTP 500 status error. -/
def c5Fetch : FetchEnv := fun url =>
  if url = orgsUrl BASE_URL none then
    Except.ok ⟨some [⟨"1", "Acme"⟩, ⟨"2", "Beta"⟩], none, some ⟨none, some false⟩⟩
  else if url = attendeesUrl BASE_URL 1 none then
    Except.ok ⟨none, some [att0], some ⟨none, some false⟩⟩
  else if url = attendeesUrl BASE_URL 2 none then
    Except.error (PyErr.httpStatusError 500)
  else Except.error PyErr.transportError

/-- Page response with no pagination block at all. -/
def c7Page : RawPage := ⟨some [], some [att0], none⟩

/-- Environment answering every URL with the pagination-free page. -/
def c7Fetch : FetchEnv := fun _ => Except.ok c7Page

/-- Page response reporting more items but a falsy continuation token,
with an empty organizations list and an empty attendees list. -/
def c8Page : RawPage := ⟨some [], some [], some ⟨some "", some true⟩⟩

/-- Environment answering every URL with the more-items, falsy-token page. -/
def c8Fetch : FetchEnv := fun _ => Except.ok c8Page

/-- Page response with pagination present (no more items) but neither an
organizations key nor an attendees key. -/
def c9Page : RawPage := ⟨none, none, some ⟨none, some false⟩⟩

/-- Environment answering every URL with the item-free page. -/
def c9Fetch : FetchEnv := fun _ => Except.ok c9Page

/-- Environment whose organizations endpoint lists one organization whose
id (the string abc) is not convertible by int(). -/
def c10Fetch : FetchEnv := fun url =>
  if url = orgsUrl BASE_URL none then
    Except.ok ⟨some [⟨"abc", "Bad"⟩], none, some ⟨none, some false⟩⟩
  else Except.error PyErr.transportError

/-- C3: for every flattened attendee sequence, the exported CSV consists of
exactly one header row with the fixed 10 columns in the contracted order,
followed by exactly one data row per attendee record, with no
deduplication or filtering. -/
theorem C3_csv_row_count_and_header (attendees : List Attendee) :
    export_attendees_to_csv attendees =
      (["organization_id", "event_id", "event_name", "event_start", "checked_in",
        "attendee_name", "email", "age", "gender", "cell_phone"].map Cell.str)
        :: attendees.map attendeeRow
    ∧ (export_attendees_to_csv attendees).length = attendees.length + 1
    ∧ csvHeaders.length = 10 := by
  refine ⟨rfl, ?_, rfl⟩
  simp [export_attendees_to_csv]

/-- C4 counterexample: on the attendee record with every key absent, the
checked_in column renders as the text False, not as the empty string, so
the claim that every missing optional field (including checked_in) renders
empty is false. -/
theorem C4_checked_in_renders_False :
    ((attendeeRow Attendee.empty).map Cell.render)[4]? = some "False"
    ∧ ("False" : String) ≠ "" := by
  decide

/-- C4 amended: a row is always produced (10 cells, no exception), any
missing optional field among the nine non-boolean columns — including the
cases where the whole profile or event sub-mapping is absent, which make
the defaulted sub-fields absent — renders as the empty string, while a
missing checked_in renders as the boolean token False. -/
theorem C4_missing_fields_render_empty (a : Attendee) :
    (attendeeRow a).length = 10
    ∧ ((a.event.getD EventObj.empty).organization_id = none →
        ((attendeeRow a).map Cell.render)[0]? = some "")
    ∧ (a.event_id = none → ((attendeeRow a).map Cell.render)[1]? = some "")
    ∧ (((a.event.getD EventObj.empty).name.getD NameObj.empty).text = none →
        ((attendeeRow a).map Cell.render)[2]? = some "")
    ∧ (((a.event.getD EventObj.empty).start.getD StartObj.empty).utc = none →
        ((attendeeRow a).map Cell.render)[3]? = some "")
    ∧ (a.checked_in = none → ((attendeeRow a).map Cell.render)[4]? = some "False")
    ∧ ((a.profile.getD Profile.empty).name = none →
        ((attendeeRow a).map Cell.render)[5]? = some "")
    ∧ ((a.profile.getD Profile.empty).email = none →
        ((attendeeRow a).map Cell.render)[6]? = some "")
    ∧ ((a.profile.getD Profile.empty).age = none →
        ((attendeeRow a).map Cell.render)[7]? = some "")
    ∧ ((a.profile.getD Profile.empty).gender = none →
        ((attendeeRow a).map Cell.render)[8]? = some "")
    ∧ ((a.profile.getD Profile.empty).cell_phone = none →
        ((attendeeRow a).map Cell.render)[9]? = some "") := by
  refine ⟨rfl, ?_, ?_, ?_, ?_, ?_, ?_, ?_, ?_, ?_, ?_⟩ <;>
    intro h <;> simp [attendeeRow, Cell.render, h]

/-- C4 witness: the amended theorem applied to the all-absent record. -/
theorem C4_missing_fields_render_empty_witness :
    ((attendeeRow Attendee.empty).map Cell.render)[0]? = some ""
    ∧ ((attendeeRow Attendee.empty).map Cell.render)[4]? = some "False"
    ∧ ((attendeeRow Attendee.empty).map Cell.render)[9]? = some "" := by
  have h := C4_missing_fields_render_empty Attendee.empty
  exact ⟨h.2.1 rfl, h.2.2.2.2.2.1 rfl, h.2.2.2.2.2.2.2.2.2.2 rfl⟩

/-- C6: the single-record scenario: exporting the Jane Doe record yields
exactly the header line and the data row
O1,E1,Gala,2024-05-01T00:00:00Z,True,Jane Doe,jane@x.com,,, with the
boolean checked_in rendered True and the three absent profile fields
empty. -/
theorem C6_jane_doe_row :
    renderCsv (export_attendees_to_csv [janeAttendee]) =
      ["organization_id,event_id,event_name,event_start,checked_in,attendee_name,email,age,gender,cell_phone",
       "O1,E1,Gala,2024-05-01T00:00:00Z,True,Jane Doe,jane@x.com,,,"] := by
  decide

/-- The schedule fold never changes the number of slots. -/
theorem gatherFold_length {α : Type} (tasks : List α) (order : List Nat)
    (init : List (Option α)) :
    (order.foldl (fun slots i => slots.set i tasks[i]?) init).length = init.length := by
  induction order generalizing init with
  | nil => rfl
  | cons x rest ih => simp [List.foldl_cons, ih, List.length_set]

/-- A slot whose index never completes keeps its initial value. -/
theorem gatherFold_not_mem {α : Type} (tasks : List α) (order : List Nat)
    (init : List (Option α)) (i : Nat) (h : i ∉ order) :
    (order.foldl (fun slots i => slots.set i tasks[i]?) init)[i]? = init[i]? := by
  induction order generalizing init with
  | nil => rfl
  | cons x rest ih =>
    have hne : x ≠ i := fun hxi => h (hxi ▸ List.mem_cons_self x rest)
    have hrest : i ∉ rest := fun hr => h (List.mem_cons_of_mem x hr)
    simpa [List.foldl_cons, ih _ hrest] using List.getElem?_set_ne hne

/-- A slot whose index completes exactly once ends holding its task's
result, whatever the completion order around it. -/
theorem gatherFold_mem {α : Type} (tasks : List α) (order : List Nat)
    (init : List (Option α)) (hlen : init.length = tasks.length)
    (i : Nat) (hi : i < tasks.length) (hmem : i ∈ order) (hnd : order.Nodup) :
    (order.foldl (fun slots i => slots.set i tasks[i]?) init)[i]? = some (some tasks[i]) := by
  induction order generalizing init with
  | nil => exact absurd hmem (List.not_mem_nil i)
  | cons x rest ih =>
    rcases List.nodup_cons.mp hnd with ⟨hx, hndr⟩
    by_cases hix : i = x
    · subst hix
      have hrest : i ∉ rest := hx
      rw [List.foldl_cons, gatherFold_not_mem tasks rest _ i hrest]
      rw [List.getElem?_set_self (hlen ▸ hi)]
      simp [List.getElem?_eq_getElem hi]
    · have hrest : i ∈ rest := by
        rcases List.mem_cons.mp hmem with h1 | h1
        · exact absurd h1 hix
        · exact h1
      rw [List.foldl_cons]
      exact ih _ (by simp [hlen]) hrest hndr

/-- C2: for every organization list of length N and every completion order
(any permutation of the task indices), the orchestrator's output has
length N and slot i holds exactly the attendee list fetched for the
organization at input index i. -/
theorem C2_gather_preserves_input_order (fetchRes : Organization → List Attendee)
    (orgs : List Organization) (order : List Nat)
    (hperm : order.Perm (List.range orgs.length)) :
    (gatherSchedule (orgs.map fetchRes) order).length = orgs.length
    ∧ ∀ i (hi : i < orgs.length),
        (gatherSchedule (orgs.map fetchRes) order)[i]? = some (some (fetchRes orgs[i])) := by
  constructor
  · simpa [gatherSchedule] using
      gatherFold_length (orgs.map fetchRes) order (List.replicate (orgs.map fetchRes).length none)
  · intro i hi
    have hmem : i ∈ order := hperm.mem_iff.mpr (List.mem_range.mpr (by simpa using hi))
    have hnd : order.Nodup := hperm.nodup_iff.mpr (List.nodup_range orgs.length)
    have h := gatherFold_mem (orgs.map fetchRes) order
      (List.replicate (orgs.map fetchRes).length none) (by simp)
      i (by simpa using hi) hmem hnd
    simpa [gatherSchedule] using h

/-- C2 witness: two organizations, completion order reversed, output still
pairs slot 0 with organization 0. -/
theorem C2_gather_preserves_input_order_witness :
    (gatherSchedule (c2Orgs.map c2Res) [1, 0]).length = 2
    ∧ (gatherSchedule (c2Orgs.map c2Res) [1, 0])[0]? = some (some [att0]) := by
  have h := C2_gather_preserves_input_order c2Res c2Orgs [1, 0] (by decide)
  exact ⟨h.1, (h.2 0 (by decide)).trans (by decide)⟩

/-- Loop invariant for the attendee paginator over a linked sequence of
mock pages: started at page j with m more linked pages ahead (j + m = k,
page i reporting more items exactly while i < k), the loop consumes pages
j..k, makes m + 1 further fetch calls, and returns normally — provided the
fuel exceeds m, showing the loop needs no bound beyond the pages
themselves. -/
theorem attendeesLoop_mock_run (fetchF : FetchEnv) (orgId : Int) (k : Nat)
    (pages : Nat → List Attendee) (tok : Nat → Option String)
    (hserv : ∀ i, i ≤ k → fetchF (attendeesUrl BASE_URL orgId (stepCont tok i)) =
        Except.ok ⟨none, some (pages i), some ⟨tok i, some (decide (i < k))⟩⟩) :
    ∀ m j, j + m = k → ∀ fuel, m < fuel → ∀ acc calls,
      attendeesLoop fetchF orgId fuel (stepCont tok j) acc calls =
        some (Except.ok (acc ++ ((List.range' j (m + 1)).map pages).flatten, calls + (m + 1))) := by
  intro m
  induction m with
  | zero =>
    intro j hj fuel hfuel acc calls
    obtain ⟨f, rfl⟩ : ∃ f, fuel = f + 1 := ⟨fuel - 1, by omega⟩
    have hj' : j = k := by omega
    have hs := hserv j (by omega)
    have hd : decide (j < k) = false := by simp [hj']
    simp [attendeesLoop, fetch_attendees_page, hs, hd, isTruthyBool, List.range'_one]
  | succ m ih =>
    intro j hj fuel hfuel acc calls
    obtain ⟨f, rfl⟩ : ∃ f, fuel = f + 1 := ⟨fuel - 1, by omega⟩
    have hjk : j < k := by omega
    have hs := hserv j (by omega)
    have hd : decide (j < k) = true := by simpa using hjk
    have hrec := ih (j + 1) (by omega) f (by omega) (acc ++ pages j) (calls + 1)
    have hstep : stepCont tok (j + 1) = tok j := rfl
    rw [hstep] at hrec
    have hr : List.range' j (m + 1 + 1) = j :: List.range' (j + 1) (m + 1) :=
      List.range'_succ j (m + 1) 1
    simp [attendeesLoop, fetch_attendees_page, hs, hd, isTruthyBool, hrec, hr,
      List.append_assoc]
    try omega

/-- C1: when the attendee endpoint serves a linked sequence of pages that
report more items for pages 0..k-1 and no more items on page k, the
attendee paginator makes exactly k + 1 fetch calls and returns the
concatenation of the attendees lists of all k + 1 pages in page order,
for every fuel bound above k — so termination comes from the
server-reported flag, not from any fixed iteration bound. -/
theorem C1_paginator_exact_calls (fetchF : FetchEnv) (orgId : Int) (k : Nat)
    (pages : Nat → List Attendee) (tok : Nat → Option String)
    (hserv : ∀ i, i ≤ k → fetchF (attendeesUrl BASE_URL orgId (stepCont tok i)) =
        Except.ok ⟨none, some (pages i), some ⟨tok i, some (decide (i < k))⟩⟩) :
    ∀ fuel, k + 1 ≤ fuel →
      get_attendees_by_org fetchF orgId fuel =
        some (Except.ok (((List.range (k + 1)).map pages).flatten, k + 1)) := by
  intro fuel hfuel
  have h := attendeesLoop_mock_run fetchF orgId k pages tok hserv k 0 (by omega) fuel (by omega) [] 0
  simpa [get_attendees_by_org, List.range_eq_range'] using h

/-- C1 witness: the two-page mock endpoint for organization 7 yields both
pages' attendees in order after exactly two calls. -/
theorem C1_paginator_exact_calls_witness :
    get_attendees_by_org c1Fetch 7 5 = some (Except.ok ([att0, att1], 2)) := by
  have h := C1_paginator_exact_calls c1Fetch 7 1 c1Pages c1Tok (by decide) 5 (by decide)
  exact h.trans (by decide)

/-- C7: a page response with no pagination block makes the page fetch fail
with the missing-required-field error (KeyError on pagination, the
DataShapeError of the taxonomy), and the error propagates unhandled out of
the attendee paginator and the organization lister. -/
theorem C7_missing_pagination_block_errors (fetchF : FetchEnv) (data : RawPage)
    (hpag : data.pagination = none) :
    (∀ url, fetchF url = Except.ok data →
        fetch_attendees_page fetchF url = Except.error (PyErr.keyError "pagination"))
    ∧ (∀ orgId fuel, fetchF (attendeesUrl BASE_URL orgId none) = Except.ok data →
        get_attendees_by_org fetchF orgId (fuel + 1) =
          some (Except.error (PyErr.keyError "pagination")))
    ∧ (∀ orgs fuel, data.organizations = some orgs →
        fetchF (orgsUrl BASE_URL none) = Except.ok data →
        get_my_organizations fetchF (fuel + 1) =
          some (Except.error (PyErr.keyError "pagination"))) := by
  refine ⟨?_, ?_, ?_⟩
  · intro url hu
    simp [fetch_attendees_page, hu, hpag]
  · intro orgId fuel hu
    simp [get_attendees_by_org, attendeesLoop, fetch_attendees_page, hu, hpag]
  · intro orgs fuel ho hu
    simp [get_my_organizations, orgsLoop, hu, ho, hpag]

/-- C7 witness: the pagination-free page makes the page fetch, the attendee
paginator and the organization lister all raise KeyError on pagination. -/
theorem C7_missing_pagination_block_errors_witness :
    fetch_attendees_page c7Fetch (attendeesUrl BASE_URL 3 none) =
      Except.error (PyErr.keyError "pagination")
    ∧ get_attendees_by_org c7Fetch 3 4 = some (Except.error (PyErr.keyError "pagination"))
    ∧ get_my_organizations c7Fetch 4 = some (Except.error (PyErr.keyError "pagination")) := by
  have h := C7_missing_pagination_block_errors c7Fetch c7Page rfl
  exact ⟨h.1 _ rfl, h.2.1 3 3 rfl, h.2.2 [] 3 rfl rfl⟩

/-- C9: the two paginators treat a missing item list asymmetrically: the
attendee page fetch defaults an absent attendees key to the empty list and
the paginator completes normally, while the organization lister raises
KeyError on an absent organizations key. -/
theorem C9_item_list_asymmetry (fetchF : FetchEnv) (data : RawPage) (p : Pagination)
    (hatt : data.attendees = none) (hpag : data.pagination = some p) :
    (∀ url, fetchF url = Except.ok data →
        fetch_attendees_page fetchF url = Except.ok ([], p.continuation, p.has_more_items))
    ∧ (∀ orgId fuel, fetchF (attendeesUrl BASE_URL orgId none) = Except.ok data →
        isTruthyBool p.has_more_items = false →
        get_attendees_by_org fetchF orgId (fuel + 1) = some (Except.ok ([], 1)))
    ∧ (∀ fuel, data.organizations = none →
        fetchF (orgsUrl BASE_URL none) = Except.ok data →
        get_my_organizations fetchF (fuel + 1) =
          some (Except.error (PyErr.keyError "organizations"))) := by
  refine ⟨?_, ?_, ?_⟩
  · intro url hu
    simp [fetch_attendees_page, hu, hpag, hatt]
  · intro orgId fuel hu hm
    simp [get_attendees_by_org, attendeesLoop, fetch_attendees_page, hu, hpag, hatt, hm]
  · intro fuel ho hu
    simp [get_my_organizations, orgsLoop, hu, ho]

/-- C9 witness: on the page with neither item list (pagination present, no
more items), the attendee paginator returns an empty result after one call
and the organization lister raises KeyError on organizations. -/
theorem C9_item_list_asymmetry_witness :
    get_attendees_by_org c9Fetch 3 4 = some (Except.ok ([], 1))
    ∧ get_my_organizations c9Fetch 4 = some (Except.error (PyErr.keyError "organizations")) := by
  have h := C9_item_list_asymmetry c9Fetch c9Page ⟨none, some false⟩ rfl rfl
  exact ⟨h.2.1 3 3 rfl rfl, h.2.2 3 rfl rfl⟩

/-- A falsy continuation value is dropped from the attendee page URL, so
the URL equals the initial request URL. -/
theorem attendeesUrl_falsy (base : String) (orgId : Int) (c : Option String)
    (hc : isTruthyStr c = false) :
    attendeesUrl base orgId c = attendeesUrl base orgId none := by
  simp [attendeesUrl, hc, show isTruthyStr (none : Option String) = false from rfl]

/-- A falsy continuation value is dropped from the organizations page URL,
so the URL equals the initial request URL. -/
theorem orgsUrl_falsy (base : String) (c : Option String)
    (hc : isTruthyStr c = false) :
    orgsUrl base c = orgsUrl base none := by
  simp [orgsUrl, hc, show isTruthyStr (none : Option String) = false from rfl]

/-- If the first attendee page reports more items with a falsy continuation
token, the paginator keeps re-requesting the first page URL and never
finishes, whatever the fuel. -/
theorem attendeesLoop_falsy_token_diverges (fetchF : FetchEnv) (orgId : Int)
    (data : RawPage) (p : Pagination)
    (hu : fetchF (attendeesUrl BASE_URL orgId none) = Except.ok data)
    (hpag : data.pagination = some p)
    (hc : isTruthyStr p.continuation = false)
    (hm : isTruthyBool p.has_more_items = true) :
    ∀ fuel cont acc calls, isTruthyStr cont = false →
      attendeesLoop fetchF orgId fuel cont acc calls = none := by
  intro fuel
  induction fuel with
  | zero => intro cont acc calls _; rfl
  | succ n ih =>
    intro cont acc calls hcont
    have hurl := attendeesUrl_falsy BASE_URL orgId cont hcont
    simp [attendeesLoop, fetch_attendees_page, hurl, hu, hpag, hm, ih _ _ _ hc]

/-- If the first organizations page reports more items with a falsy
continuation token, the lister keeps re-requesting the first page URL and
never finishes, whatever the fuel. -/
theorem orgsLoop_falsy_token_diverges (fetchF : FetchEnv)
    (data : RawPage) (orgsL : List Organization) (p : Pagination)
    (hu : fetchF (orgsUrl BASE_URL none) = Except.ok data)
    (horg : data.organizations = some orgsL)
    (hpag : data.pagination = some p)
    (hc : isTruthyStr p.continuation = false)
    (hm : isTruthyBool p.has_more_items = true) :
    ∀ fuel cont acc, isTruthyStr cont = false →
      orgsLoop fetchF fuel cont acc = none := by
  intro fuel
  induction fuel with
  | zero => intro cont acc _; rfl
  | succ n ih =>
    intro cont acc hcont
    have hurl := orgsUrl_falsy BASE_URL cont hcont
    simp [orgsLoop, hurl, hu, horg, hpag, hm, ih _ _ hc]

/-- C8: in both pagination loops, a truthy has_more_items with a falsy or
absent continuation token makes the next request go to the same URL as the
initial request (the continuation parameter is omitted), so against a
URL-determined endpoint answering the first page that way, both loops
re-fetch the first page forever and never terminate. -/
theorem C8_falsy_token_refetches_first_page (orgId : Int) (c : Option String)
    (hc : isTruthyStr c = false)
    (fetchA fetchO : FetchEnv) (pA pO : RawPage) (pgA pgO : Pagination)
    (orgsO : List Organization)
    (hA : fetchA (attendeesUrl BASE_URL orgId none) = Except.ok pA)
    (hApg : pA.pagination = some pgA)
    (hAc : isTruthyStr pgA.continuation = false)
    (hAm : isTruthyBool pgA.has_more_items = true)
    (hO : fetchO (orgsUrl BASE_URL none) = Except.ok pO)
    (hOorg : pO.organizations = some orgsO)
    (hOpg : pO.pagination = some pgO)
    (hOc : isTruthyStr pgO.continuation = false)
    (hOm : isTruthyBool pgO.has_more_items = true) :
    attendeesUrl BASE_URL orgId c = attendeesUrl BASE_URL orgId none
    ∧ orgsUrl BASE_URL c = orgsUrl BASE_URL none
    ∧ (∀ fuel, get_attendees_by_org fetchA orgId fuel = none)
    ∧ (∀ fuel, get_my_organizations fetchO fuel = none) := by
  refine ⟨attendeesUrl_falsy BASE_URL orgId c hc, orgsUrl_falsy BASE_URL c hc, ?_, ?_⟩
  · intro fuel
    exact attendeesLoop_falsy_token_diverges fetchA orgId pA pgA hA hApg hAc hAm fuel none [] 0 rfl
  · intro fuel
    exact orgsLoop_falsy_token_diverges fetchO pO orgsO pgO hO hOorg hOpg hOc hOm fuel none [] rfl

/-- C8 witness: against the endpoint whose every page reports more items
with an empty-string continuation token, both loops run out of any fuel,
and an empty-token URL equals the initial URL. -/
theorem C8_falsy_token_refetches_first_page_witness :
    attendeesUrl BASE_URL 1 (some "") = attendeesUrl BASE_URL 1 none
    ∧ orgsUrl BASE_URL (some "") = orgsUrl BASE_URL none
    ∧ get_attendees_by_org c8Fetch 1 100 = none
    ∧ get_my_organizations c8Fetch 100 = none := by
  have h := C8_falsy_token_refetches_first_page 1 (some "") rfl c8Fetch c8Fetch
    c8Page c8Page ⟨some "", some true⟩ ⟨some "", some true⟩ [] rfl rfl rfl rfl rfl rfl rfl rfl rfl
  exact ⟨h.1, h.2.1, h.2.2.1 100, h.2.2.2 100⟩

/-- When every listed organization's id converts, the comprehension yields
the converted ids in order. -/
theorem convertIds_ok (orgs : List Organization)
    (h : ∀ org ∈ orgs, pyInt org.id ≠ none) :
    convertIds orgs = Except.ok (orgs.map orgIdInt) := by
  induction orgs with
  | nil => rfl
  | cons o rest ih =>
    have ho := h o (List.mem_cons_self o rest)
    cases hp : pyInt o.id with
    | none => exact absurd hp ho
    | some n =>
      have hrest := ih (fun org hm => h org (List.mem_cons_of_mem o hm))
      simp [convertIds, hp, hrest, orgIdInt, Except.map]

/-- When some listed organization's id does not convert, the comprehension
raises ValueError. -/
theorem convertIds_err (orgs : List Organization)
    (h : ∃ org ∈ orgs, pyInt org.id = none) :
    convertIds orgs = Except.error PyErr.valueError := by
  induction orgs with
  | nil => obtain ⟨org, hm, _⟩ := h; exact absurd hm (List.not_mem_nil org)
  | cons o rest ih =>
    cases hp : pyInt o.id with
    | none => simp [convertIds, hp]
    | some n =>
      obtain ⟨org, hm, hbad⟩ := h
      rcases List.mem_cons.mp hm with rfl | hm'
      · rw [hp] at hbad; cases hbad
      · simp [convertIds, hp, ih ⟨org, hm', hbad⟩, Except.map]

/-- If every per-organization fetch finishes within the fuel and at least
one of them raises, the joined gather raises. -/
theorem gatherResults_err (fetchF : FetchEnv) (fuel : Nat) (ids : List Int)
    (hterm : ∀ id ∈ ids, ∃ r, get_attendees_by_org fetchF id fuel = some r)
    (hfail : ∃ id ∈ ids, ∃ e, get_attendees_by_org fetchF id fuel = some (Except.error e)) :
    ∃ e, gatherResults fetchF fuel ids = some (Except.error e) := by
  induction ids with
  | nil => obtain ⟨id, hm, _⟩ := hfail; exact absurd hm (List.not_mem_nil id)
  | cons id rest ih =>
    obtain ⟨r, hr⟩ := hterm id (List.mem_cons_self id rest)
    cases r with
    | error e => exact ⟨e, by simp [gatherResults, hr]⟩
    | ok val =>
      obtain ⟨atts, n⟩ := val
      obtain ⟨id2, hm2, e2, he2⟩ := hfail
      rcases List.mem_cons.mp hm2 with rfl | hm2'
      · rw [hr] at he2; cases he2
      · obtain ⟨e3, hrest⟩ :=
          ih (fun i hi => hterm i (List.mem_cons_of_mem id hi)) ⟨id2, hm2', e2, he2⟩
        exact ⟨e3, by simp [gatherResults, hr, hrest]⟩

/-- The organization lister consults the environment only at organizations
URLs: two environments agreeing there run it identically. -/
theorem orgsLoop_congr (fetchF fetchG : FetchEnv)
    (hagree : ∀ c, fetchG (orgsUrl BASE_URL c) = fetchF (orgsUrl BASE_URL c)) :
    ∀ fuel cont acc, orgsLoop fetchG fuel cont acc = orgsLoop fetchF fuel cont acc := by
  intro fuel
  induction fuel with
  | zero => intro cont acc; rfl
  | succ n ih =>
    intro cont acc
    cases hf : fetchF (orgsUrl BASE_URL cont) with
    | error e => simp [orgsLoop, hagree cont, hf]
    | ok data =>
      cases ho : data.organizations with
      | none => simp [orgsLoop, hagree cont, hf, ho]
      | some orgs =>
        cases hp : data.pagination with
        | none => simp [orgsLoop, hagree cont, hf, ho, hp]
        | some p =>
          by_cases hm : isTruthyBool p.has_more_items = true
          · simp [orgsLoop, hagree cont, hf, ho, hp, hm, ih]
          · simp [orgsLoop, hagree cont, hf, ho, hp, hm]

/-- C10: when the listed organizations contain an id that int() cannot
convert, the whole run raises ValueError; moreover the outcome is the same
for every environment that serves the same organizations pages, whatever
it would answer on attendee URLs — no attendee request influences the run. -/
theorem C10_unconvertible_id_fails_run (fetchF : FetchEnv) (fuel : Nat)
    (orgs : List Organization)
    (horgs : get_my_organizations fetchF fuel = some (Except.ok orgs))
    (hbad : ∃ org ∈ orgs, pyInt org.id = none) :
    EventbriteCetd.main fetchF fuel = some (Except.error PyErr.valueError)
    ∧ ∀ fetchG : FetchEnv,
        (∀ c, fetchG (orgsUrl BASE_URL c) = fetchF (orgsUrl BASE_URL c)) →
        EventbriteCetd.main fetchG fuel = some (Except.error PyErr.valueError) := by
  have hconv := convertIds_err orgs hbad
  constructor
  · simp [EventbriteCetd.main, horgs, hconv]
  · intro fetchG hg
    have hgorgs : get_my_organizations fetchG fuel = some (Except.ok orgs) := by
      unfold get_my_organizations at horgs ⊢
      rw [orgsLoop_congr fetchF fetchG hg fuel none []]
      exact horgs
    simp [EventbriteCetd.main, hgorgs, hconv]

/-- C10 witness: one listed organization with id abc makes the run raise
ValueError. -/
theorem C10_unconvertible_id_fails_run_witness :
    EventbriteCetd.main c10Fetch 3 = some (Except.error PyErr.valueError) := by
  have h := C10_unconvertible_id_fails_run c10Fetch 3 [⟨"abc", "Bad"⟩] (by decide)
    ⟨⟨"abc", "Bad"⟩, by decide, by decide⟩
  exact h.1

/-- C5: if every per-organization fetch finishes and at least one raises,
the run raises (the exception is re-raised, not swallowed), no CSV output
is produced (there is no successful outcome whose rows could have been
written), and the CLI exit code is 1. -/
theorem C5_failed_fetch_fails_run (fetchF : FetchEnv) (fuel : Nat)
    (orgs : List Organization)
    (horgs : get_my_organizations fetchF fuel = some (Except.ok orgs))
    (hids : ∀ org ∈ orgs, pyInt org.id ≠ none)
    (hterm : ∀ org ∈ orgs, ∃ r, get_attendees_by_org fetchF (orgIdInt org) fuel = some r)
    (hfail : ∃ org ∈ orgs, ∃ e,
        get_attendees_by_org fetchF (orgIdInt org) fuel = some (Except.error e)) :
    (∃ e, EventbriteCetd.main fetchF fuel = some (Except.error e))
    ∧ (∀ out, EventbriteCetd.main fetchF fuel ≠ some (Except.ok out))
    ∧ generate fetchF fuel = some 1 := by
  have hconv := convertIds_ok orgs hids
  have hterm2 : ∀ id ∈ orgs.map orgIdInt, ∃ r, get_attendees_by_org fetchF id fuel = some r := by
    intro id hid
    obtain ⟨org, hmem, rfl⟩ := List.mem_map.mp hid
    exact hterm org hmem
  have hfail2 : ∃ id ∈ orgs.map orgIdInt, ∃ e,
      get_attendees_by_org fetchF id fuel = some (Except.error e) := by
    obtain ⟨org, hmem, e, he⟩ := hfail
    exact ⟨orgIdInt org, List.mem_map_of_mem orgIdInt hmem, e, he⟩
  obtain ⟨e, hg⟩ := gatherResults_err fetchF fuel (orgs.map orgIdInt) hterm2 hfail2
  refine ⟨⟨e, ?_⟩, ?_, ?_⟩
  · simp [EventbriteCetd.main, horgs, hconv, hg]
  · intro out
    simp [EventbriteCetd.main, horgs, hconv, hg]
  · simp [generate, EventbriteCetd.main, horgs, hconv, hg]

/-- C5 witness: Acme's fetch succeeds, Beta's raises HTTP 500; the run
exits with code 1. -/
theorem C5_failed_fetch_fails_run_witness :
    generate c5Fetch 9 = some 1 := by
  have h := C5_failed_fetch_fails_run c5Fetch 9 [⟨"1", "Acme"⟩, ⟨"2", "Beta"⟩]
    (by decide) (by decide)
    (by
      intro org hmem
      rcases List.mem_cons.mp hmem with rfl | h2
      · exact ⟨Except.ok ([att0], 1), by decide⟩
      · rcases List.mem_cons.mp h2 with rfl | h3
        · exact ⟨Except.error (PyErr.httpStatusError 500), by decide⟩
        · exact absurd h3 (List.not_mem_nil org))
    ⟨⟨"2", "Beta"⟩, by decide, PyErr.httpStatusError 500, by decide⟩
  exact h.2.2
